import Mathlib

/-!
Verification of the caching layer and self-update-check state machine of
alfred-caniuse-rs, shallowly embedded from `src/cache.rs`, `src/update.rs`,
`src/db.rs` and `src/models.rs`.

Timestamps are modelled as natural numbers of seconds.  File-system state is
modelled explicitly: the feature-database cache is a single optional file slot
(content, creation time, readability), and the update-check record is a single
optional file slot whose content is either a complete encoded record,
undecodable garbage, or the leftover prefix of an interrupted write.
External collaborators (zstd/serde codecs, the network probe) are modelled by
their contracts: the codec is lossless, and the probe either yields a location
string or fails.
-/

deriving instance DecidableEq for Except

namespace Caniuse

/-! ## Data model (src/models.rs, src/db.rs) -/

/-- The `Channel` enum from models.rs: stable, beta or nightly. -/
inductive Channel
  | stable
  | beta
  | nightly
deriving DecidableEq

/-- The `CompilerVersionData` struct from models.rs. -/
structure CompilerVersionData where
  number : String
  channel : Channel
  release_date : Option String
  release_notes : Option String
  blog_post_path : Option String
  gh_milestone_id : Option Nat
deriving DecidableEq

/-- The `FeatureData` struct from models.rs. -/
structure FeatureData where
  title : String
  flag : Option String
  rfc_id : Option Nat
  impl_pr_id : Option Nat
  tracking_issue_id : Option Nat
  stabilization_pr_id : Option Nat
  doc_path : Option String
  edition_guide_path : Option String
  unstable_book_path : Option String
  items : List String
  version_number : Option String
  aliases : List String
  slug : String
deriving DecidableEq

/-- The `Db` struct from db.rs: base URL plus the two string-keyed maps
(`HashMap` modelled as an association list). -/
structure Db where
  base_url : String
  versions : List (String × CompilerVersionData)
  features : List (String × FeatureData)
deriving DecidableEq

/-! ## Cache-file model (src/cache.rs) -/

/-- Constant `FOUR_HOURS_SECS` from cache.rs. -/
def FOUR_HOURS_SECS : Nat := 3600 * 4

/-- Bytes stored in the cache file: either the (zstd-compressed JSON)
encoding of a `Db` — the codec contract is lossless — or bytes that fail to
decompress/deserialize. -/
inductive CacheBytes
  | encoded (db : Db)
  | garbage
deriving DecidableEq

/-- One on-disk cache file: its content, the filesystem-reported creation
timestamp, and whether opening it for read succeeds (an unreadable file
models an I/O error other than NotFound). -/
structure CacheFile where
  content : CacheBytes
  created : Nat
  readable : Bool
deriving DecidableEq

/-- Function `cache_fetch_inner` from cache.rs: open (absent file is the distinguished
`Ok None`; an unreadable file is an error), read the creation time from
metadata (`elapsed` errors when the creation time lies in the future), reject
when the age exceeds `MAX_AGE`, then decompress and deserialize. -/
def cache_fetch_inner (now : Nat) (file : Option CacheFile) :
    Except Unit (Option Db) :=
  match file with
  | none => .ok none
  | some f =>
    if f.readable = false then .error ()
    else if now < f.created then .error ()
    else if now - f.created > FOUR_HOURS_SECS then .error ()
    else
      match f.content with
      | .encoded db => .ok (some db)
      | .garbage => .error ()

/-- Function `cache_fetch` from cache.rs: on any error from the inner fetch, delete the
cache file (ignoring errors on that delete) and return `None`.  The result is
the returned value together with the cache-file state afterwards. -/
def cache_fetch (now : Nat) (file : Option CacheFile) :
    Option Db × Option CacheFile :=
  match cache_fetch_inner now file with
  | .ok db => (db, file)
  | .error _ => (none, none)

/-- Function `cache_put_inner` from cache.rs: ensure the cache directory exists, then
`let _ = fs::remove_file(cache_path())?;` — the `?` operator propagates the
delete's error, so when no cache file exists the NotFound error aborts the
write; otherwise create-and-truncate, serialize, compress and write all
bytes. -/
def cache_put_inner (now : Nat) (db : Db) (file : Option CacheFile) :
    Except Unit (Option CacheFile) :=
  match file with
  | none => .error ()
  | some _ => .ok (some { content := .encoded db, created := now, readable := true })

/-- Function `cache_put` from cache.rs: on any error from the inner put, delete the
cache file (ignoring errors on that delete).  Returns the cache-file state
afterwards. -/
def cache_put (now : Nat) (db : Db) (file : Option CacheFile) :
    Option CacheFile :=
  match cache_put_inner now db file with
  | .ok f => f
  | .error _ => none

/-! ## Self-update check (src/update.rs) -/

/-- Constant `DAY_IN_SECS` from update.rs. -/
def DAY_IN_SECS : Nat := 3600 * 24

/-- Constant `LATEST_URL` from update.rs: the fixed releases-page URL. -/
def LATEST_URL : String := "https://github.com/robjtede/alfred-caniuse-rs/releases"

/-- The persisted `UpdateCheck` record from update.rs
(`last_check` is an `OffsetDateTime`, modelled in seconds). -/
structure UpdateCheck where
  update_needed : Bool
  checked_with : String
  last_check : Nat
deriving DecidableEq

/-- The tri-state decision `NeedsCheck` from update.rs. -/
inductive NeedsCheck
  | yes
  | no
  | knownOutdated
deriving DecidableEq

/-- Substring test on character lists: does `h` start with `n`?
Models the beginning of Rust's `str::contains` search. -/
def leadsWith : List Char → List Char → Bool
  | [], _ => true
  | _ :: _, [] => false
  | c :: cs, d :: ds => (c == d) && leadsWith cs ds

/-- Does `n` occur as a contiguous run inside `h`?  Models Rust's
`str::contains` for string needles. -/
def occursIn : List Char → List Char → Bool
  | n, [] => n.isEmpty
  | n, d :: hs => leadsWith n (d :: hs) || occursIn n hs

/-- Rust `hay.contains(needle)` for string needles: substring search. -/
def strContains (hay needle : String) : Bool :=
  occursIn needle.toList hay.toList

/-- Method `UpdateCheck::remote_check_needed` from update.rs, with the running
version (`SELF_VERSION`) and the current time passed explicitly. -/
def UpdateCheck.remote_check_needed (c : UpdateCheck) (selfVersion : String)
    (now : Nat) : NeedsCheck :=
  if selfVersion ≠ c.checked_with then .yes
  else if c.update_needed then .knownOutdated
  else if now - c.last_check > DAY_IN_SECS then .yes
  else .no

/-- Bytes stored in the update-check record file: a complete encoded record,
undecodable garbage, or the strict prefix (possibly empty) of `record`'s
encoding left behind by an interrupted `write_all` after `File::create`
truncated the file.  A strict prefix of a JSON document is not valid JSON, so
both non-`encoded` forms fail to deserialize. -/
inductive RecBytes
  | encoded (record : UpdateCheck)
  | garbage
  | interrupted (record : UpdateCheck)
deriving DecidableEq

/-- Function `self_need_update_check` from update.rs: read the record file (absent
file is the distinguished `Ok Yes`; other read errors propagate), deserialize
(failure propagates as an error so the caller can clean up), then apply
`remote_check_needed`. -/
def self_need_update_check (selfVersion : String) (now : Nat)
    (recFile : Option RecBytes) : Except Unit NeedsCheck :=
  match recFile with
  | none => .ok .yes
  | some (.encoded record) => .ok (record.remote_check_needed selfVersion now)
  | some .garbage => .error ()
  | some (.interrupted _) => .error ()

/-- Function `self_update_check_inner` from update.rs: probe GitHub with redirects
disabled (`probe` is the `location` header of the response, `none` when the
request fails or the header is missing — the file is untouched in that case);
then ensure the cache directory exists, `File::create` the record file
(truncating any previous record), compute `update_needed` as the negation of
the substring test, serialize the fresh record and `write_all` it.  `writeOk`
says whether that write succeeds; a failed write leaves the truncated file
holding only a strict prefix of the new record's bytes and propagates the
error. -/
def self_update_check_inner (selfVersion : String) (now : Nat)
    (probe : Option String) (writeOk : Bool) (recFile : Option RecBytes) :
    Except Unit Bool × Option RecBytes :=
  match probe with
  | none => (.error (), recFile)
  | some latest_url =>
    let update_needed := !(strContains latest_url selfVersion)
    let record : UpdateCheck :=
      { update_needed := update_needed, checked_with := selfVersion, last_check := now }
    if writeOk then (.ok update_needed, some (.encoded record))
    else (.error (), some (.interrupted record))

/-- Function `self_update_check` from update.rs: consult `self_need_update_check`;
on `No` return nothing, on `KnownOutdated` short-circuit to the releases URL,
on `Yes` fall through to the remote probe, and on an error (a corrupt record)
delete the record file (ignoring errors) and fall through to the probe.  The
probe's own errors are swallowed.  Returns the reported URL (if any) together
with the record-file state afterwards. -/
def self_update_check (selfVersion : String) (now : Nat)
    (probe : Option String) (writeOk : Bool) (recFile : Option RecBytes) :
    Option String × Option RecBytes :=
  match self_need_update_check selfVersion now recFile with
  | .ok .no => (none, recFile)
  | .ok .knownOutdated => (some LATEST_URL, recFile)
  | .ok .yes =>
    match self_update_check_inner selfVersion now probe writeOk recFile with
    | (.ok true, f) => (some LATEST_URL, f)
    | (.ok false, f) => (none, f)
    | (.error _, f) => (none, f)
  | .error _ =>
    match self_update_check_inner selfVersion now probe writeOk none with
    | (.ok true, f) => (some LATEST_URL, f)
    | (.ok false, f) => (none, f)
    | (.error _, f) => (none, f)

/-- The fields of an `alfred::Item` that `self_update_check_item` sets. -/
structure AlfredItem where
  title : String
  subtitle : Option String
  arg : Option String
deriving DecidableEq

/-- Function `self_update_check_item` from update.rs: wrap the URL reported by
`self_update_check` into the notification row. -/
def self_update_check_item (selfVersion : String) (now : Nat)
    (probe : Option String) (writeOk : Bool) (recFile : Option RecBytes) :
    Option AlfredItem × Option RecBytes :=
  match self_update_check selfVersion now probe writeOk recFile with
  | (url?, f) =>
    (url?.map (fun url =>
      { title := "A workflow update is available."
        subtitle := some "Press enter to go to download page."
        arg := some url }), f)

/-! ## Helper lemmas -/

/-- The test `leadsWith n h` holds exactly when `h` extends `n`. -/
theorem leadsWith_iff (n h : List Char) :
    leadsWith n h = true ↔ ∃ t, h = n ++ t := by
  induction n generalizing h with
  | nil => simp [leadsWith]
  | cons c cs ih =>
    cases h with
    | nil => simp [leadsWith]
    | cons d ds =>
      simp only [leadsWith, Bool.and_eq_true, beq_iff_eq, ih, List.cons_append,
        List.cons.injEq]
      constructor
      · rintro ⟨hcd, t, ht⟩
        exact ⟨t, hcd.symm, ht⟩
      · rintro ⟨t, hdc, ht⟩
        exact ⟨hdc.symm, t, ht⟩

/-- The test `occursIn n h` holds exactly when `n` is a contiguous substring of `h`. -/
theorem occursIn_iff (n h : List Char) :
    occursIn n h = true ↔ ∃ p t, h = p ++ (n ++ t) := by
  induction h with
  | nil =>
    simp only [occursIn, List.isEmpty_iff]
    constructor
    · rintro rfl
      exact ⟨[], [], rfl⟩
    · rintro ⟨p, t, ht⟩
      rcases List.append_eq_nil.mp ht.symm with ⟨rfl, h2⟩
      exact (List.append_eq_nil.mp h2).1
  | cons d hs ih =>
    simp only [occursIn, Bool.or_eq_true, leadsWith_iff, ih]
    constructor
    · rintro (⟨t, ht⟩ | ⟨p, t, ht⟩)
      · exact ⟨[], t, by simpa using ht⟩
      · exact ⟨d :: p, t, by simp [ht]⟩
    · rintro ⟨p, t, ht⟩
      cases p with
      | nil => exact Or.inl ⟨t, by simpa using ht⟩
      | cons q ps =>
        simp only [List.cons_append, List.cons.injEq] at ht
        exact Or.inr ⟨ps, t, ht.2⟩

/-- Correctness of `strContains`: it computes substring containment. -/
theorem strContains_iff (hay needle : String) :
    strContains hay needle = true ↔
      ∃ p t, hay.toList = p ++ (needle.toList ++ t) :=
  occursIn_iff needle.toList hay.toList

/-! ## Claims about the cache (src/cache.rs) -/

/-- C1: the spec says the store's replace step deletes any existing file
while ignoring a "file does not exist" failure on that delete, so that a
store into a state with no pre-existing cache file succeeds.  The code
instead propagates the delete's NotFound error through `?`, so
`cache_put_inner` fails on a fresh state and no file is written; when a file
does pre-exist, the replace succeeds as described. -/
theorem cache_put_fresh_state_fails :
    cache_put_inner 0 ⟨"", [], []⟩ none = .error ()
    ∧ cache_put 0 ⟨"", [], []⟩ none = none
    ∧ cache_put 7 ⟨"", [], []⟩ (some ⟨.garbage, 0, true⟩)
        = some ⟨.encoded ⟨"", [], []⟩, 7, true⟩ :=
  ⟨rfl, rfl, rfl⟩

/-- C2: the round-trip `store(V)` then `load()` fails from a starting disk
state with no cache file: the store aborts on the propagated NotFound error
of its delete step, leaves no file, and the immediate load returns `none`
instead of `some V`. -/
theorem cache_roundtrip_fresh_state_fails (now now2 : Nat) (db : Db) :
    cache_put now db none = none
    ∧ (cache_fetch now2 (cache_put now db none)).fst = none :=
  ⟨rfl, rfl⟩

/-- The inner fetch yields a value exactly when the file exists, is readable,
holds a valid encoding, was not created in the future, and is at most
`FOUR_HOURS_SECS` old. -/
theorem cache_fetch_inner_ok_iff (now : Nat) (file : Option CacheFile)
    (db : Db) :
    cache_fetch_inner now file = .ok (some db) ↔
      ∃ c, file = some ⟨.encoded db, c, true⟩ ∧ c ≤ now
        ∧ now - c ≤ FOUR_HOURS_SECS := by
  cases file with
  | none => simp [cache_fetch_inner]
  | some f =>
    obtain ⟨content, c, r⟩ := f
    cases r with
    | false => simp [cache_fetch_inner]
    | true =>
      cases content with
      | garbage =>
        simp only [cache_fetch_inner]
        split_ifs <;> simp
      | encoded db2 =>
        rcases Nat.lt_or_ge now c with h1 | h1
        · have hL : cache_fetch_inner now (some ⟨.encoded db2, c, true⟩)
              = .error () := by
            simp [cache_fetch_inner, h1]
          rw [hL]
          constructor
          · intro h
            cases h
          · rintro ⟨c2, heq, hle, hage⟩
            simp only [Option.some.injEq, CacheFile.mk.injEq] at heq
            omega
        · rcases Nat.lt_or_ge FOUR_HOURS_SECS (now - c) with h2 | h2
          · have hn1 : ¬ (now < c) := by omega
            have hL : cache_fetch_inner now (some ⟨.encoded db2, c, true⟩)
                = .error () := by
              simp [cache_fetch_inner, hn1, h2]
            rw [hL]
            constructor
            · intro h
              cases h
            · rintro ⟨c2, heq, hle, hage⟩
              simp only [Option.some.injEq, CacheFile.mk.injEq] at heq
              omega
          · have hn1 : ¬ (now < c) := by omega
            have hn2 : ¬ (now - c > FOUR_HOURS_SECS) := by omega
            have hL : cache_fetch_inner now (some ⟨.encoded db2, c, true⟩)
                = .ok (some db2) := by
              simp [cache_fetch_inner, hn1, hn2]
            rw [hL]
            constructor
            · intro h
              have hdb : db2 = db := by
                simpa using h
              subst hdb
              exact ⟨c, rfl, h1, h2⟩
            · rintro ⟨c2, heq, hle, hage⟩
              simp only [Option.some.injEq, CacheFile.mk.injEq,
                CacheBytes.encoded.injEq] at heq
              rw [heq.1]

/-- C4: `cache_fetch` returns a cached value iff the backing file exists, is
readable, decodes, and its age is at most four hours; for a file written at
time `T`, a fetch at `T + TTL - ε` returns the value and leaves the file,
while a fetch at `T + TTL + ε` returns `none` and deletes the file. -/
theorem cache_fetch_valid_iff_and_ttl_boundary (now T e : Nat) (db : Db)
    (file : Option CacheFile) (he : 0 < e) (heTTL : e ≤ FOUR_HOURS_SECS) :
    ((cache_fetch now file).fst = some db ↔
      ∃ c, file = some ⟨.encoded db, c, true⟩ ∧ c ≤ now
        ∧ now - c ≤ FOUR_HOURS_SECS)
    ∧ cache_fetch (T + FOUR_HOURS_SECS - e) (some ⟨.encoded db, T, true⟩)
        = (some db, some ⟨.encoded db, T, true⟩)
    ∧ cache_fetch (T + FOUR_HOURS_SECS + e) (some ⟨.encoded db, T, true⟩)
        = (none, none) := by
  refine ⟨?_, ?_, ?_⟩
  · rw [← cache_fetch_inner_ok_iff]
    unfold cache_fetch
    cases h : cache_fetch_inner now file with
    | ok v =>
      cases v <;> simp
    | error e2 => simp
  · have h1 : ¬ (T + FOUR_HOURS_SECS - e < T) := by omega
    have h2 : ¬ (T + FOUR_HOURS_SECS - e - T > FOUR_HOURS_SECS) := by omega
    simp [cache_fetch, cache_fetch_inner, h1, h2]
  · have h1 : ¬ (T + FOUR_HOURS_SECS + e < T) := by omega
    have h2 : T + FOUR_HOURS_SECS + e - T > FOUR_HOURS_SECS := by omega
    simp [cache_fetch, cache_fetch_inner, h1, h2]

/-- Witness for C4 at `T = 0`, `ε = 1` and the empty database. -/
theorem cache_fetch_valid_iff_and_ttl_boundary_instance :
    cache_fetch (0 + FOUR_HOURS_SECS - 1)
        (some ⟨.encoded ⟨"", [], []⟩, 0, true⟩)
      = (some ⟨"", [], []⟩, some ⟨.encoded ⟨"", [], []⟩, 0, true⟩)
    ∧ cache_fetch (0 + FOUR_HOURS_SECS + 1)
        (some ⟨.encoded ⟨"", [], []⟩, 0, true⟩)
      = (none, none) :=
  ⟨(cache_fetch_valid_iff_and_ttl_boundary 0 0 1 ⟨"", [], []⟩ none
      (by decide) (by decide)).2.1,
   (cache_fetch_valid_iff_and_ttl_boundary 0 0 1 ⟨"", [], []⟩ none
      (by decide) (by decide)).2.2⟩

/-- C5: on a file whose bytes fail to decode, `cache_fetch` returns `none`
and deletes the file; a second fetch on the resulting state returns `none`
without further effect, and a fetch on an absent file returns `none` with no
side effect. -/
theorem cache_fetch_corruption_self_heal (now now2 c : Nat) (r : Bool) :
    cache_fetch now (some ⟨.garbage, c, r⟩) = (none, none)
    ∧ cache_fetch now2 (cache_fetch now (some ⟨.garbage, c, r⟩)).snd
        = (none, none)
    ∧ cache_fetch now2 none = (none, none) := by
  have hinner : cache_fetch_inner now (some ⟨.garbage, c, r⟩) = .error () := by
    cases r <;> simp only [cache_fetch_inner] <;> split_ifs <;> rfl
  have h1 : cache_fetch now (some ⟨.garbage, c, r⟩) = (none, none) := by
    simp [cache_fetch, hinner]
  refine ⟨h1, ?_, rfl⟩
  rw [h1]
  rfl

/-! ## Claims about the update check (src/update.rs) -/

/-- Modelled from the spec: the transition function
`decide(record, running_version, now)` of the update-check state machine,
written exactly as the spec's four numbered rules. -/
def decideSpec (record : UpdateCheck) (running_version : String)
    (now : Nat) : NeedsCheck :=
  if record.checked_with ≠ running_version then .yes
  else if record.update_needed = true then .knownOutdated
  else if now - record.last_check > 24 * 3600 then .yes
  else .no

/-- C3: the decision computed from a decodable record agrees with the spec's
four rules: `Yes` on a version mismatch, else `KnownOutdated` when
`update_needed`, else `Yes` when the last check is more than 24 hours old,
else `No`. -/
theorem remote_check_needed_matches_spec (c : UpdateCheck) (v : String)
    (now : Nat) :
    c.remote_check_needed v now = decideSpec c v now := by
  unfold UpdateCheck.remote_check_needed decideSpec
  have h24 : DAY_IN_SECS = 24 * 3600 := by decide
  rw [h24]
  by_cases h : v = c.checked_with
  · subst h
    simp
  · simp [h, Ne.symm h]

/-- C6: when the record file holds undecodable bytes, the update check
behaves exactly as a run with no record file at all (whose decision is
`Yes`): the corrupt file is deleted and the remote probe runs; in particular
a failed probe after a corrupt record reports nothing and leaves the file
deleted, so `KnownOutdated` is never produced from an undecodable record. -/
theorem update_check_decode_failure_purges_and_probes (v : String) (now : Nat)
    (probe : Option String) (writeOk : Bool) :
    self_update_check v now probe writeOk (some .garbage)
        = self_update_check v now probe writeOk none
    ∧ self_update_check v now none writeOk (some .garbage) = (none, none)
    ∧ self_need_update_check v now none = .ok .yes :=
  ⟨rfl, rfl, rfl⟩

/-- Predicate `isCompleteRecord` holds only of a fully written, decodable record. -/
def RecBytes.isCompleteRecord : RecBytes → Bool
  | .encoded _ => true
  | .garbage => false
  | .interrupted _ => false

/-- C7 counterexample: a probe whose write fails leaves the record file
holding only an interrupted prefix of the new record — neither the complete
previous record nor the complete new one. -/
theorem update_record_interrupted_write_cx :
    (self_update_check_inner "1.2.3" 1000
        (some "https://example.com/v9.9.9/download") false
        (some (.encoded ⟨false, "1.2.3", 500⟩))).snd
      = some (.interrupted ⟨true, "1.2.3", 1000⟩)
    ∧ Option.map RecBytes.isCompleteRecord
        (self_update_check_inner "1.2.3" 1000
          (some "https://example.com/v9.9.9/download") false
          (some (.encoded ⟨false, "1.2.3", 500⟩))).snd
      = some false := by
  decide

/-- C7 amended: a probe that fails before reaching the record file (network
error or missing location header) leaves the previous record untouched, and a
successful probe rewrites the file with the complete new record; but because
the file is created-and-truncated before the bytes are written, a probe whose
write fails leaves an interrupted prefix of the new record on disk. -/
theorem update_record_write_behavior (v url : String) (now : Nat)
    (file : Option RecBytes) :
    self_update_check_inner v now none true file = (.error (), file)
    ∧ self_update_check_inner v now none false file = (.error (), file)
    ∧ self_update_check_inner v now (some url) true file
        = (.ok (!(strContains url v)),
           some (.encoded ⟨!(strContains url v), v, now⟩))
    ∧ self_update_check_inner v now (some url) false file
        = (.error (), some (.interrupted ⟨!(strContains url v), v, now⟩)) :=
  ⟨rfl, rfl, rfl, rfl⟩

/-- C8: after a successful probe, the stored and returned `update_needed` is
`false` exactly when the resolved location string contains the running
version as a contiguous substring, and `true` exactly when it does not. -/
theorem update_needed_iff_version_not_substring (v url : String) (now : Nat)
    (file : Option RecBytes) :
    (self_update_check_inner v now (some url) true file
        = (.ok false, some (.encoded ⟨false, v, now⟩))
      ↔ ∃ p t, url.toList = p ++ (v.toList ++ t))
    ∧ (self_update_check_inner v now (some url) true file
        = (.ok true, some (.encoded ⟨true, v, now⟩))
      ↔ ¬ ∃ p t, url.toList = p ++ (v.toList ++ t)) := by
  have hc := strContains_iff url v
  cases hs : strContains url v with
  | true =>
    have hex : ∃ p t, url.data = p ++ (v.data ++ t) := hc.mp hs
    simp [self_update_check_inner, hs, hex]
  | false =>
    have hnex : ¬ ∃ p t, url.data = p ++ (v.data ++ t) := by
      intro hsub
      exact absurd (hc.mpr hsub) (by simp [hs])
    simp [self_update_check_inner, hs, hnex]

/-- Witness for C8: a location string containing the running version yields
`update_needed = false`. -/
theorem update_needed_iff_version_not_substring_instance :
    self_update_check_inner "1.2" 5 (some "x1.2y") true none
      = (.ok false, some (.encoded ⟨false, "1.2", 5⟩)) :=
  (update_needed_iff_version_not_substring "1.2" "x1.2y" 5 none).1.mpr
    ⟨['x'], ['y'], by decide⟩

/-- C9: when the decision computed from the record is `No` or
`KnownOutdated`, no probe runs and the whole update check leaves the record
file unchanged: the result carries the input file state, neither rewritten
nor deleted. -/
theorem update_check_no_probe_leaves_record_unchanged (v : String) (now : Nat)
    (probe : Option String) (writeOk : Bool) (recFile : Option RecBytes) :
    (self_need_update_check v now recFile = .ok .no →
        self_update_check v now probe writeOk recFile = (none, recFile))
    ∧ (self_need_update_check v now recFile = .ok .knownOutdated →
        self_update_check v now probe writeOk recFile
          = (some LATEST_URL, recFile)) := by
  constructor <;> intro h <;> simp [self_update_check, h]

/-- Witness for C9: a record known outdated for the running version
short-circuits and leaves the file untouched. -/
theorem update_check_no_probe_leaves_record_unchanged_instance :
    self_need_update_check "1.0.0" 0 (some (.encoded ⟨true, "1.0.0", 0⟩))
        = .ok .knownOutdated
    ∧ self_update_check "1.0.0" 0 (some "anywhere") true
        (some (.encoded ⟨true, "1.0.0", 0⟩))
      = (some LATEST_URL, some (.encoded ⟨true, "1.0.0", 0⟩)) :=
  ⟨by decide,
   (update_check_no_probe_leaves_record_unchanged "1.0.0" 0 (some "anywhere")
      true (some (.encoded ⟨true, "1.0.0", 0⟩))).2 (by decide)⟩

/-- Whenever `self_update_check` reports a URL, it is the fixed releases-page
constant, never the probed location string. -/
theorem self_update_check_reports_latest (v : String) (now : Nat)
    (probe : Option String) (writeOk : Bool) (recFile : Option RecBytes)
    (url : String)
    (h : (self_update_check v now probe writeOk recFile).fst = some url) :
    url = LATEST_URL := by
  unfold self_update_check at h
  split at h
  · simp at h
  · simp at h
    exact h.symm
  · split at h <;> simp_all
  · split at h <;> simp_all

/-- C10: whenever the update check produces a notification item — whether
from the `KnownOutdated` short-circuit or from a successful probe — the
item's target URL is the fixed releases-page constant `LATEST_URL`. -/
theorem update_item_url_is_releases_page (v : String) (now : Nat)
    (probe : Option String) (writeOk : Bool) (recFile : Option RecBytes)
    (it : AlfredItem)
    (h : (self_update_check_item v now probe writeOk recFile).fst = some it) :
    it.arg = some LATEST_URL := by
  unfold self_update_check_item at h
  rcases hu : self_update_check v now probe writeOk recFile with ⟨url?, f⟩
  rw [hu] at h
  simp only [Option.map_eq_some'] at h
  obtain ⟨u, hu2, hit⟩ := h
  have hurl : u = LATEST_URL :=
    self_update_check_reports_latest v now probe writeOk recFile u
      (by rw [hu]; exact hu2)
  subst hit
  simp [hurl]

/-- Witness for C10: the known-outdated short-circuit reports an item whose
target is the releases page. -/
theorem update_item_url_is_releases_page_instance :
    (self_update_check_item "1.0.0" 0 none true
        (some (.encoded ⟨true, "1.0.0", 0⟩))).fst
      = some ⟨"A workflow update is available.",
              some "Press enter to go to download page.", some LATEST_URL⟩
    ∧ (⟨"A workflow update is available.",
        some "Press enter to go to download page.",
        some LATEST_URL⟩ : AlfredItem).arg = some LATEST_URL :=
  ⟨by decide,
   update_item_url_is_releases_page "1.0.0" 0 none true
     (some (.encoded ⟨true, "1.0.0", 0⟩)) _ (by decide)⟩

end Caniuse
